import Mathlib

/-!
Shallow embedding of `src/app.py`, the processing stage of the image-ingestion
pipeline (key mapper `_build_metadata_key`, extension filter
`_is_allowed_image_key`, tag normalizer `_safe_exif_dict`, and the batch
worker `metadata_handler`).

Modelling conventions:
- Python strings are lists of code points (`PyStr`), so slicing, prefix and
  suffix tests, and case mapping are the corresponding list operations.
- Byte strings are lists of byte values (`List Nat`).
- The S3 client is a state-threaded interface `S3Api σ`.  Two instantiations
  are used: `storeApi`, a deterministic in-memory blob store (an association
  list keyed by bucket/key), and `oracleApi`, a call-counting oracle that can
  make every call succeed or fail arbitrarily.
- The image-decoding library (PIL) is a capability record `PilLib`: a
  deterministic decoder from bytes, the tag-name table `ExifTags.TAGS`, and
  the `bytes.decode("utf-8", errors="replace")` codec.
- A Python exception that a handler catches is an explicit failure
  constructor; an exception that escapes is `Except.error`.
-/

set_option maxRecDepth 40000

set_option maxHeartbeats 1000000

namespace App

/-- A Python `str`, as its sequence of code points. -/
abbrev PyStr := List Char

/-- Code points of a Lean string literal, used to write `PyStr` constants. -/
def pstr (s : String) : PyStr := s.data

/-- Python `str.lower` (ASCII range, which covers every key in play). -/
def pyLower (s : PyStr) : PyStr := s.map Char.toLower

/-- Python `str.upper` (ASCII range). -/
def pyUpper (s : PyStr) : PyStr := s.map Char.toUpper

/-- `ALLOWED_EXTS = (".jpg", ".jpeg", ".png")` from `app.py`. -/
def ALLOWED_EXTS : List PyStr := [pstr (".jpg"), pstr (".jpeg"), pstr (".png")]

/-- `_is_allowed_image_key(key)`: `key.lower().endswith(ALLOWED_EXTS)`. -/
def _is_allowed_image_key (key : PyStr) : Bool :=
  ALLOWED_EXTS.any fun ext => ext.isSuffixOf (pyLower key)

/-- `_build_metadata_key(input_key, input_prefix, output_prefix)` from `app.py`:
strip the input marker when present, then append the output marker in front
and `".json"` behind. -/
def _build_metadata_key (inputKey inputPfx outputPfx : PyStr) : PyStr :=
  let rel := if inputPfx.isPrefixOf inputKey then inputKey.drop inputPfx.length else inputKey
  outputPfx ++ rel ++ pstr (".json")

/-- Association-list update with Python `dict` semantics: replace in place if
the key is present, else append. -/
def upsert {κ α : Type} [DecidableEq κ] : List (κ × α) → κ → α → List (κ × α)
  | [], k, v => [(k, v)]
  | (k', v') :: rest, k, v =>
    if k' = k then (k, v) :: rest else (k', v') :: upsert rest k v

/-- Association-list lookup. -/
def alookup {κ α : Type} [DecidableEq κ] : List (κ × α) → κ → Option α
  | [], _ => none
  | (k', v') :: rest, k => if k' = k then some v' else alookup rest k

/-- A JSON-safe EXIF value: a string or a list of strings. -/
inductive ExVal where
  | s (v : PyStr)
  | l (vs : List PyStr)
deriving DecidableEq

/-- The normalized EXIF mapping (a Python `dict` in insertion order). -/
abbrev ExifDict := List (PyStr × ExVal)

/-- A raw EXIF tag value as the Python code can observe it:
`bytes`/`bytearray` payloads, `tuple`/`list` values (kept as the `str()` image
of each element), and anything else (kept as its `str()` image). -/
inductive TagValue where
  | vbytes (bs : List Nat)
  | vseq (elems : List PyStr)
  | vother (s : PyStr)
deriving DecidableEq

/-- What `img.getexif()` plus iterating the tag table can do: raise somewhere,
or yield a list of `(tag_id, value)` entries. -/
inductive ExifRes where
  | raises
  | table (entries : List (Nat × TagValue))

/-- Result of decoding image bytes with PIL: dimensions, `img.format`
(`None` possible), and the EXIF capability. -/
structure DecodedImage where
  width : Int
  height : Int
  format : Option PyStr
  exifRes : ExifRes

/-- The imaging-library capabilities used by the worker: `Image.open` as a
deterministic partial decoder, `ExifTags.TAGS.get`, and
`bytes.decode("utf-8", errors="replace")`. -/
structure PilLib where
  decode : List Nat → Option DecodedImage
  tags : Nat → Option PyStr
  u8 : List Nat → PyStr

/-- Decimal digits of a natural number (fuel-indexed so it computes). -/
def natDigitsAux : Nat → Nat → PyStr
  | 0, _ => []
  | _ + 1, 0 => []
  | fuel + 1, n => natDigitsAux fuel (n / 10) ++ [Nat.digitChar (n % 10)]

/-- Python `str(n)` for a natural number. -/
def natStr (n : Nat) : PyStr := if n = 0 then pstr ("0") else natDigitsAux (n + 1) n

/-- Python `str(n)` for an integer. -/
def intStr : Int → PyStr
  | .ofNat n => natStr n
  | .negSucc n => '-' :: natStr (n + 1)

/-- The value coercion applied to each tag value inside `_safe_exif_dict`. -/
def coerceTagValue (u8 : List Nat → PyStr) : TagValue → ExVal
  | .vbytes bs => .s (u8 bs)
  | .vseq es => .l es
  | .vother s => .s s

/-- `_safe_exif_dict(img)` from `app.py`: empty on a raise, otherwise each
entry keyed by `ExifTags.TAGS.get(tag_id, str(tag_id))` with the coerced
value, assembled with `dict` update semantics. -/
def _safe_exif_dict (tags : Nat → Option PyStr) (u8 : List Nat → PyStr) : ExifRes → ExifDict
  | .raises => []
  | .table entries =>
    entries.foldl (fun d e => upsert d ((tags e.1).getD (natStr e.1)) (coerceTagValue u8 e.2)) []

/-- Four lowercase hex digits, as in Python's `\uXXXX` escapes. -/
def hex4 (n : Nat) : PyStr :=
  [Nat.digitChar (n / 4096 % 16), Nat.digitChar (n / 256 % 16),
   Nat.digitChar (n / 16 % 16), Nat.digitChar (n % 16)]

/-- Escape of one character inside a JSON string, following
`json.dumps` with its default `ensure_ascii=True`. -/
def jsonEscChar (c : Char) : PyStr :=
  if c = '"' then ['\\', '"']
  else if c = '\\' then ['\\', '\\']
  else if c = '\n' then ['\\', 'n']
  else if c = '\t' then ['\\', 't']
  else if c = '\r' then ['\\', 'r']
  else if c.toNat = 8 then ['\\', 'b']
  else if c.toNat = 12 then ['\\', 'f']
  else if 0x20 ≤ c.toNat ∧ c.toNat < 0x7f then [c]
  else if c.toNat < 0x10000 then '\\' :: 'u' :: hex4 c.toNat
  else
    ('\\' :: 'u' :: hex4 (0xd800 + (c.toNat - 0x10000) / 0x400)) ++
    ('\\' :: 'u' :: hex4 (0xdc00 + (c.toNat - 0x10000) % 0x400))

/-- A JSON string literal for `s`. -/
def jsonStr (s : PyStr) : PyStr := '"' :: s.flatMap jsonEscChar ++ ['"']

/-- Join pieces with a separator. -/
def joinSep (sep : PyStr) : List PyStr → PyStr
  | [] => []
  | [x] => x
  | x :: y :: rest => x ++ sep ++ joinSep sep (y :: rest)

/-- Python string comparison: lexicographic on code points. -/
def pyStrLt : PyStr → PyStr → Bool
  | [], [] => false
  | [], _ :: _ => true
  | _ :: _, [] => false
  | a :: as, b :: bs => if a < b then true else if b < a then false else pyStrLt as bs

/-- Insert one entry into a key-sorted entry list. -/
def insSorted (e : PyStr × ExVal) : List (PyStr × ExVal) → List (PyStr × ExVal)
  | [] => [e]
  | f :: rest => if pyStrLt e.1 f.1 then e :: f :: rest else f :: insSorted e rest

/-- `sorted(...)` over dict entries by key, as `sort_keys=True` does. -/
def sortByKey (l : List (PyStr × ExVal)) : List (PyStr × ExVal) := l.foldr insSorted []

/-- One EXIF value at its nesting depth inside the output document
(`json.dumps(..., indent=2)` puts list elements at six spaces). -/
def jsonOfExVal : ExVal → PyStr
  | .s v => jsonStr v
  | .l [] => pstr ("[]")
  | .l (v :: vs) =>
    pstr ("[\n") ++
    joinSep (pstr (",\n")) ((v :: vs).map fun x => pstr ("      ") ++ jsonStr x) ++
    pstr ("\n    ]")

/-- The `exif` object as `json.dumps(..., indent=2, sort_keys=True)` renders
it in value position at depth one. -/
def jsonOfExif (d : ExifDict) : PyStr :=
  match sortByKey d with
  | [] => pstr ("\x7b\x7d")
  | e :: es =>
    pstr ("\x7b\n") ++
    joinSep (pstr (",\n"))
      ((e :: es).map fun f => pstr ("    ") ++ jsonStr f.1 ++ pstr (": ") ++ jsonOfExVal f.2) ++
    pstr ("\n  \x7d")

/-- `null` or a JSON string. -/
def jsonOfOptStr : Option PyStr → PyStr
  | none => pstr ("null")
  | some s => jsonStr s

/-- The output record of `metadata_handler` (the `metadata` dict). -/
structure Metadata where
  source_bucket : PyStr
  source_key : PyStr
  etag : Option PyStr
  format : PyStr
  width : Int
  height : Int
  file_size_bytes : Int
  exif : ExifDict
deriving DecidableEq

/-- Lines 173-182 of `app.py`: assembling the `metadata` dict. -/
def assembleMetadata (bucket key : PyStr) (etag : Option PyStr) (fmt : PyStr)
    (width height fileSize : Int) (exifData : ExifDict) : Metadata :=
  { source_bucket := bucket, source_key := key, etag := etag, format := fmt,
    width := width, height := height, file_size_bytes := fileSize, exif := exifData }

/-- `json.dumps(metadata, indent=2, sort_keys=True)`: the eight top-level keys
in sorted order, two-space indentation throughout. -/
def serializeMetadata (m : Metadata) : PyStr :=
  pstr ("\x7b\n  \"etag\": ") ++ jsonOfOptStr m.etag ++
  pstr (",\n  \"exif\": ") ++ jsonOfExif m.exif ++
  pstr (",\n  \"file_size_bytes\": ") ++ intStr m.file_size_bytes ++
  pstr (",\n  \"format\": ") ++ jsonStr m.format ++
  pstr (",\n  \"height\": ") ++ intStr m.height ++
  pstr (",\n  \"source_bucket\": ") ++ jsonStr m.source_bucket ++
  pstr (",\n  \"source_key\": ") ++ jsonStr m.source_key ++
  pstr (",\n  \"width\": ") ++ intStr m.width ++
  pstr ("\n\x7d")

/-- UTF-8 encoding of one code point. -/
def utf8Char (c : Char) : List Nat :=
  let n := c.toNat
  if n < 0x80 then [n]
  else if n < 0x800 then [0xc0 + n / 0x40, 0x80 + n % 0x40]
  else if n < 0x10000 then [0xe0 + n / 0x1000, 0x80 + n / 0x40 % 0x40, 0x80 + n % 0x40]
  else [0xf0 + n / 0x40000, 0x80 + n / 0x1000 % 0x40, 0x80 + n / 0x40 % 0x40, 0x80 + n % 0x40]

/-- Python `str.encode("utf-8")`. -/
def utf8Encode (s : PyStr) : List Nat := s.flatMap utf8Char

/-- A parsed work item (`bucket`, `key`, optional `etag`). -/
structure WorkItem where
  bucket : PyStr
  key : PyStr
  etag : Option PyStr
deriving DecidableEq

/-- The two environment options read at the top of `metadata_handler`
(`INPUT_PREFIX`, `OUTPUT_PREFIX`). -/
structure Config where
  inputPfx : PyStr
  outputPfx : PyStr

/-- One SQS record as the code can see it.  Three cases: the
`json.loads`/field access raises (malformed body or missing `bucket`/`key`),
caught at lines 126-129; the body parses but its `key` value is not a string,
in which case `key.startswith(input_prefix)` at line 131 — outside every
`try` — raises an uncaught `AttributeError`/`TypeError`; or a well-formed
work item comes out.  (A parsed non-string `bucket` does not raise until the
`head_object` call itself, so it is the existence check raising a
non-`ClientError`, which the `Oracle` model covers as `HeadResult.raised`.) -/
inductive RecordEnv where
  | malformed
  | nonStrKey
  | wellFormed (item : WorkItem)
deriving DecidableEq

/-- What `s3.head_object` can do: succeed, raise a `ClientError` carrying an
error code, or raise anything else (the handler catches only `ClientError`). -/
inductive HeadResult where
  | found
  | clientError (code : PyStr)
  | raised
deriving DecidableEq

/-- What `s3.get_object` plus reading the body can do; `contentLength` is the
`ContentLength` entry of the response when present. -/
inductive GetResult where
  | got (body : List Nat) (contentLength : Option Int)
  | raised
deriving DecidableEq

/-- What `s3.put_object` can do. -/
inductive PutResult where
  | ok
  | raised
deriving DecidableEq

/-- Per-item classification: which of the three counters the item lands in. -/
inductive Outcome where
  | processedO
  | skippedO
  | erroredO
deriving DecidableEq

/-- The batch summary returned by `metadata_handler`. -/
structure Summary where
  statusCode : Nat
  processed : Nat
  skipped : Nat
  errors : Nat
deriving DecidableEq

/-- The S3 client as a state-threaded capability record. -/
structure S3Api (σ : Type) where
  headObject : PyStr → PyStr → σ → HeadResult × σ
  getObject : PyStr → PyStr → σ → GetResult × σ
  putObject : PyStr → PyStr → List Nat → PyStr → σ → PutResult × σ

/-- The error codes the handler treats as not-found:
`("404", "NoSuchKey", "NotFound")`. -/
def notFoundCodes : List PyStr := [pstr ("404"), pstr ("NoSuchKey"), pstr ("NotFound")]

/-- The body of the `for record in ...` loop of `metadata_handler`
(lines 120-196 of `app.py`).  `Except.error` is an exception escaping the
loop.  There are two uncaught spots: the prefix test
`key.startswith(input_prefix)` at line 131 sits outside every `try`, so it
raises uncaught when the parsed `key` is not a string; and the
existence-check `try` catches `ClientError` alone, so any other raise out of
`head_object` escapes.  Every other step catches `Exception`. -/
def processRecord {σ : Type} (api : S3Api σ) (lib : PilLib) (cfg : Config) :
    RecordEnv → σ → Except Unit (Outcome × σ)
  | .malformed, s => .ok (.erroredO, s)
  | .nonStrKey, _ => .error ()
  | .wellFormed item, s =>
    if !(cfg.inputPfx.isPrefixOf item.key) || !(_is_allowed_image_key item.key) then
      .ok (.skippedO, s)
    else
      let outKey := _build_metadata_key item.key cfg.inputPfx cfg.outputPfx
      match api.headObject item.bucket outKey s with
      | (.found, s1) => .ok (.skippedO, s1)
      | (.raised, _) => .error ()
      | (.clientError code, s1) =>
        if !(notFoundCodes.contains code) then .ok (.erroredO, s1)
        else
          match api.getObject item.bucket item.key s1 with
          | (.raised, s2) => .ok (.erroredO, s2)
          | (.got body declared, s2) =>
            let contentLen : Int := declared.getD (Int.ofNat body.length)
            match lib.decode body with
            | none => .ok (.erroredO, s2)
            | some img =>
              let fmt := pyUpper (img.format.getD [])
              let exifData := _safe_exif_dict lib.tags lib.u8 img.exifRes
              let metadata := assembleMetadata item.bucket item.key item.etag fmt
                img.width img.height contentLen exifData
              match api.putObject item.bucket outKey
                  (utf8Encode (serializeMetadata metadata)) (pstr ("application/json")) s2 with
              | (.ok, s3) => .ok (.processedO, s3)
              | (.raised, s3) => .ok (.erroredO, s3)

/-- The counting loop of `metadata_handler`, with the three counters as
accumulators. -/
def runBatch {σ : Type} (api : S3Api σ) (lib : PilLib) (cfg : Config) :
    List RecordEnv → Nat → Nat → Nat → σ → Except Unit (Summary × σ)
  | [], p, sk, er, s =>
    .ok ({ statusCode := 200, processed := p, skipped := sk, errors := er }, s)
  | r :: rest, p, sk, er, s =>
    match processRecord api lib cfg r s with
    | .error e => .error e
    | .ok (.processedO, s1) => runBatch api lib cfg rest (p + 1) sk er s1
    | .ok (.skippedO, s1) => runBatch api lib cfg rest p (sk + 1) er s1
    | .ok (.erroredO, s1) => runBatch api lib cfg rest p sk (er + 1) s1

/-- `metadata_handler(event, context)` over an already-shaped record list:
process every record, then return the `statusCode`/counter summary. -/
def metadata_handler {σ : Type} (api : S3Api σ) (lib : PilLib) (cfg : Config)
    (records : List RecordEnv) (s : σ) : Except Unit (Summary × σ) :=
  runBatch api lib cfg records 0 0 0 s

/-- One stored blob: its bytes, an optionally distinct declared
`ContentLength`, and the content type it was written with. -/
structure StoredObj where
  body : List Nat
  declaredLen : Option Int
  contentType : Option PyStr
deriving DecidableEq

/-- An in-memory blob store keyed by `(bucket, key)`. -/
abbrev Store := List ((PyStr × PyStr) × StoredObj)

/-- The deterministic store-backed S3 client: `head_object` raises a
`ClientError` with code `"404"` exactly on absent keys, `get_object` returns
the bytes and the declared length, `put_object` overwrites. -/
def storeApi : S3Api Store where
  headObject := fun b k s =>
    (match alookup s (b, k) with
     | some _ => .found
     | none => .clientError (pstr ("404")), s)
  getObject := fun b k s =>
    (match alookup s (b, k) with
     | some o => .got o.body o.declaredLen
     | none => .raised, s)
  putObject := fun b k body ct s =>
    (.ok, upsert s (b, k) { body := body, declaredLen := none, contentType := some ct })

/-- `ProcessOne`: the loop body for one well-formed work item against the
in-memory store. -/
def processOne (lib : PilLib) (cfg : Config) (item : WorkItem) (s : Store) :
    Except Unit (Outcome × Store) :=
  processRecord storeApi lib cfg (.wellFormed item) s

/-- Scripted collaborator behaviour: the result of the `n`-th call of each
kind, free to be anything. -/
structure Oracle where
  head : Nat → HeadResult
  get : Nat → GetResult
  put : Nat → PutResult

/-- How many calls of each kind have happened. -/
structure CallLog where
  heads : Nat
  gets : Nat
  puts : Nat
deriving DecidableEq

/-- The S3 client driven by an `Oracle`, counting every call. -/
def oracleApi (o : Oracle) : S3Api CallLog where
  headObject := fun _ _ l => (o.head l.heads, { l with heads := l.heads + 1 })
  getObject := fun _ _ l => (o.get l.gets, { l with gets := l.gets + 1 })
  putObject := fun _ _ _ _ l => (o.put l.puts, { l with puts := l.puts + 1 })

/-! ### Concrete fixtures used by witnesses -/

/-- A 10x20 JPEG with an empty tag table, as the decoder reports it. -/
def wImg : DecodedImage :=
  { width := 10, height := 20, format := some (pstr ("jpeg")), exifRes := .table [] }

/-- A decoder that recognizes exactly the bytes `[1, 2, 3]`, a tag table
naming tag 306, and a codec fixed on one byte string. -/
def wLib : PilLib where
  decode := fun bs => if bs = [1, 2, 3] then some wImg else none
  tags := fun n => if n = 306 then some (pstr ("DateTime")) else none
  u8 := fun bs => if bs = [104, 105] then pstr ("hi") else pstr ("")

/-- The default configuration (`incoming/` to `metadata/`). -/
def wCfg : Config := { inputPfx := pstr ("incoming/"), outputPfx := pstr ("metadata/") }

/-- A work item for `incoming/a.jpg`. -/
def wItem : WorkItem :=
  { bucket := pstr ("b"), key := pstr ("incoming/a.jpg"), etag := some (pstr ("e1")) }

/-- The source image object. -/
def wObj : StoredObj :=
  { body := [1, 2, 3], declaredLen := none, contentType := some (pstr ("image/jpeg")) }

/-- A store holding only the source image. -/
def wStore0 : Store := [((pstr ("b"), pstr ("incoming/a.jpg")), wObj)]

/-- The record the first run assembles for `wItem`. -/
def wMeta : Metadata :=
  assembleMetadata (pstr ("b")) (pstr ("incoming/a.jpg")) (some (pstr ("e1")))
    (pstr ("JPEG")) 10 20 3 []

/-- The sidecar object the first run writes. -/
def wOut : StoredObj :=
  { body := utf8Encode (serializeMetadata wMeta), declaredLen := none,
    contentType := some (pstr ("application/json")) }

/-- The store after the first successful run. -/
def wStore1 : Store := upsert wStore0 (pstr ("b"), pstr ("metadata/a.jpg.json")) wOut

/-- A store like `wStore0` but with the source object declaring a content
length (999) different from its actual byte count (3). -/
def w5Obj : StoredObj :=
  { body := [1, 2, 3], declaredLen := some 999, contentType := some (pstr ("image/jpeg")) }

/-- A store holding only `w5Obj`. -/
def w5Store0 : Store := [((pstr ("b"), pstr ("incoming/a.jpg")), w5Obj)]

/-- The record assembled from `w5Obj`: its size field is the declared 999,
not the actual byte count. -/
def w5Meta : Metadata :=
  assembleMetadata (pstr ("b")) (pstr ("incoming/a.jpg")) (some (pstr ("e1")))
    (pstr ("JPEG")) 10 20 999 []

/-- The sidecar written from `w5Store0`. -/
def w5Out : StoredObj :=
  { body := utf8Encode (serializeMetadata w5Meta), declaredLen := none,
    contentType := some (pstr ("application/json")) }

/-- The store after processing `wItem` against `w5Store0`. -/
def w5Store1 : Store := upsert w5Store0 (pstr ("b"), pstr ("metadata/a.jpg.json")) w5Out

/-- A second initial store with the same source object as `wStore0` plus an
unrelated object in another bucket. -/
def w7Store0 : Store := wStore0 ++ [((pstr ("c"), pstr ("x")), wObj)]

/-- The store after processing `wItem` against `w7Store0`. -/
def w7Store1 : Store := upsert w7Store0 (pstr ("b"), pstr ("metadata/a.jpg.json")) wOut

/-- Scripted behaviour whose existence check always reports "found". -/
def wOracleFound : Oracle where
  head := fun _ => .found
  get := fun _ => .got [1, 2, 3] none
  put := fun _ => .ok

/-- Scripted behaviour whose existence check always raises a not-found
`ClientError`, with fetch and write succeeding. -/
def wOracle404 : Oracle where
  head := fun _ => .clientError (pstr ("404"))
  get := fun _ => .got [1, 2, 3] none
  put := fun _ => .ok

/-- The scripted behaviour refuting C2 and C3 as stated: the existence check
raises a non-`ClientError` failure. -/
def cexOracle : Oracle where
  head := fun _ => .raised
  get := fun _ => .got [] none
  put := fun _ => .ok

/-! ### Association-list lemmas -/

theorem alookup_upsert_self {κ α : Type} [DecidableEq κ] (l : List (κ × α)) (k : κ) (v : α) :
    alookup (upsert l k v) k = some v := by
  induction l with
  | nil => simp [upsert, alookup]
  | cons e rest ih =>
    by_cases h : e.1 = k
    · simp [upsert, alookup, h]
    · simp [upsert, alookup, h, ih]

theorem alookup_upsert_ne {κ α : Type} [DecidableEq κ] (l : List (κ × α)) (k k' : κ) (v : α)
    (h : k' ≠ k) : alookup (upsert l k v) k' = alookup l k' := by
  have hne : ¬ k = k' := fun hh => h hh.symm
  induction l with
  | nil => simp only [upsert, alookup]; rw [if_neg hne]
  | cons f rest ih =>
    obtain ⟨ek, ev⟩ := f
    simp only [upsert]
    by_cases he : ek = k
    · subst he
      rw [if_pos rfl]
      simp only [alookup]
      rw [if_neg hne, if_neg hne]
    · rw [if_neg he]
      simp only [alookup]
      by_cases hk2 : ek = k'
      · rw [if_pos hk2, if_pos hk2]
      · rw [if_neg hk2, if_neg hk2]; exact ih

theorem mem_upsert {κ α : Type} [DecidableEq κ] {l : List (κ × α)} {k : κ} {v : α}
    {e : κ × α} (h : e ∈ upsert l k v) : e ∈ l ∨ e = (k, v) := by
  induction l with
  | nil => simp [upsert] at h; simp [h]
  | cons f rest ih =>
    by_cases hf : f.1 = k
    · simp [upsert, hf] at h
      rcases h with h | h
      · right; simpa using h
      · left; simp [h]
    · simp [upsert, hf] at h
      rcases h with h | h
      · left; simp [h]
      · rcases ih h with h' | h'
        · left; simp [h']
        · right; exact h'

/-! ### Inversion of the loop body -/

/-- What a `Processed` outcome tells us, over any S3 client: the item passed
validation, the existence check returned a not-found-class `ClientError`, the
fetch and decode succeeded, and the canonical serialization of the assembled
record was written to the mapped key with content type `application/json`. -/
theorem processRecord_processed_inv {σ : Type} (api : S3Api σ) (lib : PilLib) (cfg : Config)
    (item : WorkItem) (s sf : σ)
    (h : processRecord api lib cfg (.wellFormed item) s = .ok (.processedO, sf)) :
    cfg.inputPfx.isPrefixOf item.key = true ∧ _is_allowed_image_key item.key = true ∧
    ∃ code s1 body declared s2 img,
      api.headObject item.bucket (_build_metadata_key item.key cfg.inputPfx cfg.outputPfx) s
        = (.clientError code, s1) ∧
      notFoundCodes.contains code = true ∧
      api.getObject item.bucket item.key s1 = (.got body declared, s2) ∧
      lib.decode body = some img ∧
      api.putObject item.bucket (_build_metadata_key item.key cfg.inputPfx cfg.outputPfx)
        (utf8Encode (serializeMetadata (assembleMetadata item.bucket item.key item.etag
          (pyUpper (img.format.getD [])) img.width img.height
          (declared.getD (Int.ofNat body.length))
          (_safe_exif_dict lib.tags lib.u8 img.exifRes))))
        (pstr ("application/json")) s2 = (.ok, sf) := by
  simp only [processRecord] at h
  split at h
  · exact absurd h (by simp)
  · next hcond =>
    rw [Bool.or_eq_true, not_or] at hcond
    obtain ⟨hpre, hext⟩ := hcond
    simp only [Bool.not_eq_true', Bool.not_eq_false] at hpre hext
    refine ⟨hpre, hext, ?_⟩
    split at h
    · exact absurd h (by simp)
    · exact absurd h (by simp)
    · next code s1 hhead =>
      split at h
      · exact absurd h (by simp)
      · next hcode =>
        simp only [Bool.not_eq_true', Bool.not_eq_false] at hcode
        split at h
        · exact absurd h (by simp)
        · next body declared s2 hget =>
          split at h
          · exact absurd h (by simp)
          · next img hdec =>
            split at h
            · next s3 hput =>
              simp only [Except.ok.injEq, Prod.mk.injEq, true_and] at h
              exact ⟨code, s1, body, declared, s2, img, hhead, hcode, hget, hdec,
                by rw [hput, h]⟩
            · exact absurd h (by simp)

/-- The store-level reading of a `Processed` outcome: no sidecar existed, the
source object was present and decodable, and the final store is exactly the
initial store plus the canonical sidecar at the mapped key. -/
theorem processOne_processed_inv (lib : PilLib) (cfg : Config) (item : WorkItem)
    (s sf : Store) (h : processOne lib cfg item s = .ok (.processedO, sf)) :
    cfg.inputPfx.isPrefixOf item.key = true ∧ _is_allowed_image_key item.key = true ∧
    alookup s (item.bucket, _build_metadata_key item.key cfg.inputPfx cfg.outputPfx) = none ∧
    ∃ inp img, alookup s (item.bucket, item.key) = some inp ∧
      lib.decode inp.body = some img ∧
      sf = upsert s (item.bucket, _build_metadata_key item.key cfg.inputPfx cfg.outputPfx)
        { body := utf8Encode (serializeMetadata (assembleMetadata item.bucket item.key item.etag
            (pyUpper (img.format.getD [])) img.width img.height
            (inp.declaredLen.getD (Int.ofNat inp.body.length))
            (_safe_exif_dict lib.tags lib.u8 img.exifRes))),
          declaredLen := none, contentType := some (pstr ("application/json")) } := by
  obtain ⟨hpre, hext, code, s1, body, declared, s2, img, hhead, hcode, hget, hdec, hput⟩ :=
    processRecord_processed_inv storeApi lib cfg item s sf h
  refine ⟨hpre, hext, ?_⟩
  simp only [storeApi, Prod.mk.injEq] at hhead hget hput
  obtain ⟨hheadm, hs1⟩ := hhead
  subst hs1
  obtain ⟨hgetm, hs2⟩ := hget
  subst hs2
  obtain ⟨-, hsf⟩ := hput
  split at hheadm
  · exact absurd hheadm (by simp)
  · next hlk =>
    refine ⟨hlk, ?_⟩
    split at hgetm
    · next inp hin =>
      obtain ⟨hb, hd⟩ : inp.body = body ∧ inp.declaredLen = declared := by
        cases hgetm; exact ⟨rfl, rfl⟩
      subst hb
      subst hd
      exact ⟨inp, img, hin, hdec, hsf.symm⟩
    · exact absurd hgetm (by simp)

/-- Against the store, any returning outcome other than `Processed` leaves the
store untouched: the write in the `Processed` path is the only mutation. -/
theorem processOne_ok_state (lib : PilLib) (cfg : Config) (item : WorkItem)
    (s : Store) (out : Outcome) (sf : Store)
    (h : processOne lib cfg item s = .ok (out, sf)) :
    out = .processedO ∨ sf = s := by
  simp only [processOne, processRecord, storeApi] at h
  split at h
  · cases h; exact Or.inr rfl
  · split at h
    · next s1 heq =>
      cases h
      injection heq with h1 h2
      exact Or.inr h2.symm
    · exact absurd h (by simp)
    · next code s1 heq =>
      injection heq with h1 h2
      split at h
      · cases h; exact Or.inr h2.symm
      · split at h
        · next s2 heq2 =>
          injection heq2 with h3 h4
          cases h
          exact Or.inr (h4.symm.trans h2.symm)
        · next body declared s2 heq2 =>
          injection heq2 with h3 h4
          split at h
          · cases h; exact Or.inr (h4.symm.trans h2.symm)
          · cases h; exact Or.inl rfl

/-- Totality of the loop body when the parsed key is a string and every
existence-check failure is a `ClientError`: every other collaborator failure
is caught. -/
theorem processRecord_isOk (o : Oracle) (lib : PilLib) (cfg : Config)
    (hh : ∀ n, o.head n ≠ .raised) (r : RecordEnv) (hk : r ≠ .nonStrKey) (l : CallLog) :
    (processRecord (oracleApi o) lib cfg r l).isOk = true := by
  match r with
  | .nonStrKey => exact absurd rfl hk
  | .malformed => rfl
  | .wellFormed item =>
    simp only [processRecord, oracleApi]
    split
    · rfl
    · cases hv : o.head l.heads with
      | found => simp only [hv]; rfl
      | raised => exact absurd hv (hh l.heads)
      | clientError code =>
        simp only [hv]
        repeat' split
        all_goals rfl

/-- The counter bookkeeping of the batch loop: every returning run classifies
each record into exactly one counter, and reports `statusCode` 200. -/
theorem runBatch_counts {σ : Type} (api : S3Api σ) (lib : PilLib) (cfg : Config) :
    ∀ (records : List RecordEnv) (p sk er : Nat) (s : σ) (sum : Summary) (sf : σ),
      runBatch api lib cfg records p sk er s = .ok (sum, sf) →
      sum.processed + sum.skipped + sum.errors = p + sk + er + records.length ∧
      sum.statusCode = 200 := by
  intro records
  induction records with
  | nil =>
    intro p sk er s sum sf h
    cases h
    constructor
    · simp
    · rfl
  | cons r rest ih =>
    intro p sk er s sum sf h
    simp only [runBatch] at h
    split at h
    · exact absurd h (by simp)
    · obtain ⟨h1, h2⟩ := ih _ _ _ _ _ _ h
      exact ⟨by rw [h1]; simp; omega, h2⟩
    · obtain ⟨h1, h2⟩ := ih _ _ _ _ _ _ h
      exact ⟨by rw [h1]; simp; omega, h2⟩
    · obtain ⟨h1, h2⟩ := ih _ _ _ _ _ _ h
      exact ⟨by rw [h1]; simp; omega, h2⟩

/-- Origin of each entry of the normalized tag fold: it comes from some raw
entry, keyed by the resolved name and carrying the coerced value. -/
theorem mem_exif_fold (tags : Nat → Option PyStr) (u8 : List Nat → PyStr) :
    ∀ (entries : List (Nat × TagValue)) (d : ExifDict) (k : PyStr) (v : ExVal),
      (k, v) ∈ entries.foldl
        (fun d e => upsert d ((tags e.1).getD (natStr e.1)) (coerceTagValue u8 e.2)) d →
      (k, v) ∈ d ∨ ∃ id tv, (id, tv) ∈ entries ∧
        k = (tags id).getD (natStr id) ∧ v = coerceTagValue u8 tv := by
  intro entries
  induction entries with
  | nil => intro d k v h; exact Or.inl h
  | cons e rest ih =>
    intro d k v h
    simp only [List.foldl_cons] at h
    rcases ih _ k v h with h' | h'
    · rcases mem_upsert h' with h'' | h''
      · exact Or.inl h''
      · right
        refine ⟨e.1, e.2, by simp, ?_, ?_⟩
        · exact congrArg Prod.fst h''
        · exact congrArg Prod.snd h''
    · right
      obtain ⟨id, tv, hmem, hk, hv⟩ := h'
      exact ⟨id, tv, by simp [hmem], hk, hv⟩

/-! ### The claims -/

/-- C1: if one run of `ProcessOne` on a work item against a store returns
`Processed`, a second run of `ProcessOne` on the same item against the
resulting store returns `Skipped` and leaves the store exactly as it was
after the first run (the sidecar written by the first run included). -/
theorem C1_processOne_idempotent (lib : PilLib) (cfg : Config) (item : WorkItem)
    (s0 s1 : Store) (h : processOne lib cfg item s0 = .ok (.processedO, s1)) :
    processOne lib cfg item s1 = .ok (.skippedO, s1) := by
  obtain ⟨hpre, hext, hnone, inp, img, hin, hdec, hsf⟩ :=
    processOne_processed_inv lib cfg item s0 s1 h
  subst hsf
  simp [processOne, processRecord, storeApi, hpre, hext, alookup_upsert_self]

/-- C4: the key mapper appends `".json"` after replacing the input marker by
the output marker when the key starts with the input marker, and after the
bare key otherwise; in particular on any key of the shape `pfx ++ r` it
returns `out ++ r ++ ".json"`. -/
theorem C4_build_metadata_key (key pfx out : PyStr) :
    (pfx.isPrefixOf key = true →
      _build_metadata_key key pfx out = out ++ key.drop pfx.length ++ pstr (".json")) ∧
    (pfx.isPrefixOf key = false →
      _build_metadata_key key pfx out = out ++ key ++ pstr (".json")) ∧
    (∀ r, key = pfx ++ r → _build_metadata_key key pfx out = out ++ r ++ pstr (".json")) := by
  refine ⟨?_, ?_, ?_⟩
  · intro h; simp [_build_metadata_key, h]
  · intro h; simp [_build_metadata_key, h]
  · intro r hr
    subst hr
    simp [_build_metadata_key, List.isPrefixOf_iff_prefix]

/-- C5: the `file_size_bytes` field of the record a `Processed` run writes is
the content length declared by the fetch (defaulting to the byte count only
when no length is declared), not a recomputation from the fetched bytes. -/
theorem C5_file_size_from_content_length (lib : PilLib) (cfg : Config) (item : WorkItem)
    (s0 s1 : Store) (inp : StoredObj) (img : DecodedImage)
    (h : processOne lib cfg item s0 = .ok (.processedO, s1))
    (hin : alookup s0 (item.bucket, item.key) = some inp)
    (hdec : lib.decode inp.body = some img) :
    alookup s1 (item.bucket, _build_metadata_key item.key cfg.inputPfx cfg.outputPfx) =
      some { body := utf8Encode (serializeMetadata (assembleMetadata item.bucket item.key
               item.etag (pyUpper (img.format.getD [])) img.width img.height
               (inp.declaredLen.getD (Int.ofNat inp.body.length))
               (_safe_exif_dict lib.tags lib.u8 img.exifRes))),
             declaredLen := none, contentType := some (pstr ("application/json")) } ∧
    (assembleMetadata item.bucket item.key item.etag (pyUpper (img.format.getD []))
        img.width img.height (inp.declaredLen.getD (Int.ofNat inp.body.length))
        (_safe_exif_dict lib.tags lib.u8 img.exifRes)).file_size_bytes =
      inp.declaredLen.getD (Int.ofNat inp.body.length) := by
  obtain ⟨-, -, -, inp', img', hin', hdec', hsf⟩ :=
    processOne_processed_inv lib cfg item s0 s1 h
  rw [hin] at hin'
  injection hin' with he
  subst he
  rw [hdec] at hdec'
  injection hdec' with he2
  subst he2
  subst hsf
  exact ⟨alookup_upsert_self _ _ _, rfl⟩

/-- C7: every `Processed` run writes, at the mapped key, the UTF-8 encoding
of the canonical (sorted-keys, two-space-indented) serialization of the
assembled record, with content type `application/json`; two runs fed the same
work item and the same source object (even inside different stores) write
byte-identical sidecars. -/
theorem C7_canonical_write (lib : PilLib) (cfg : Config) (item : WorkItem)
    (s0 s0' t t' : Store) (inp : StoredObj)
    (h : processOne lib cfg item s0 = .ok (.processedO, t))
    (h' : processOne lib cfg item s0' = .ok (.processedO, t'))
    (hin : alookup s0 (item.bucket, item.key) = some inp)
    (hin' : alookup s0' (item.bucket, item.key) = some inp) :
    ∃ o, alookup t (item.bucket, _build_metadata_key item.key cfg.inputPfx cfg.outputPfx)
        = some o ∧
      alookup t' (item.bucket, _build_metadata_key item.key cfg.inputPfx cfg.outputPfx)
        = some o ∧
      o.contentType = some (pstr ("application/json")) ∧
      ∃ m, o.body = utf8Encode (serializeMetadata m) := by
  obtain ⟨-, -, -, inp1, img1, hin1, hdec1, hsf1⟩ :=
    processOne_processed_inv lib cfg item s0 t h
  obtain ⟨-, -, -, inp2, img2, hin2, hdec2, hsf2⟩ :=
    processOne_processed_inv lib cfg item s0' t' h'
  rw [hin] at hin1
  injection hin1 with he1
  subst he1
  rw [hin'] at hin2
  injection hin2 with he2
  subst he2
  rw [hdec1] at hdec2
  injection hdec2 with he3
  subst he3
  subst hsf1
  subst hsf2
  exact ⟨_, alookup_upsert_self _ _ _, alookup_upsert_self _ _ _, rfl, _, rfl⟩

/-- C10: a `Processed` run changes the store only at the pair formed by the
work item's own bucket and the mapped output key (every other bucket/key pair
reads back unchanged), and a run with any other outcome changes nothing. -/
theorem C10_write_target (lib : PilLib) (cfg : Config) (item : WorkItem)
    (s0 : Store) (out : Outcome) (s1 : Store)
    (h : processOne lib cfg item s0 = .ok (out, s1)) :
    (out = .processedO →
      ∃ o, s1 = upsert s0
          (item.bucket, _build_metadata_key item.key cfg.inputPfx cfg.outputPfx) o ∧
        ∀ b k, (b, k) ≠ (item.bucket, _build_metadata_key item.key cfg.inputPfx cfg.outputPfx) →
          alookup s1 (b, k) = alookup s0 (b, k)) ∧
    (out ≠ .processedO → s1 = s0) := by
  constructor
  · intro hout
    subst hout
    obtain ⟨-, -, -, inp, img, hin, hdec, hsf⟩ :=
      processOne_processed_inv lib cfg item s0 s1 h
    refine ⟨_, hsf, ?_⟩
    intro b k hne
    subst hsf
    exact alookup_upsert_ne _ _ _ _ hne
  · intro hne
    rcases processOne_ok_state lib cfg item s0 out s1 h with h' | h'
    · exact absurd h' hne
    · exact h'

/-- C2 is false as stated: on a work item that passes validation, an
existence-check failure that is not a `ClientError` (so in particular not a
not-found) does not produce the outcome `Errored`: the exception escapes the
loop instead of being classified. -/
theorem C2_counterexample :
    wCfg.inputPfx.isPrefixOf wItem.key = true ∧ _is_allowed_image_key wItem.key = true ∧
    cexOracle.head 0 = .raised ∧
    processRecord (oracleApi cexOracle) wLib wCfg (.wellFormed wItem) ⟨0, 0, 0⟩ =
      .error () := by
  exact ⟨by decide, by decide, rfl, rfl⟩

/-- C2 (amended): for a validated item, an existing output means `Skipped`
with no fetch; a `ClientError` with a code outside the not-found class means
`Errored` with no fetch; a non-`ClientError` existence-check failure
propagates as an exception (also without fetching); and a fetch can only
happen after a not-found-class `ClientError` from the existence check. -/
theorem C2_head_check_gate (o : Oracle) (lib : PilLib) (cfg : Config) (item : WorkItem)
    (l0 : CallLog) (hp : cfg.inputPfx.isPrefixOf item.key = true)
    (ha : _is_allowed_image_key item.key = true) :
    (o.head l0.heads = .found →
      processRecord (oracleApi o) lib cfg (.wellFormed item) l0 =
        .ok (.skippedO, { l0 with heads := l0.heads + 1 })) ∧
    (∀ code, o.head l0.heads = .clientError code → notFoundCodes.contains code = false →
      processRecord (oracleApi o) lib cfg (.wellFormed item) l0 =
        .ok (.erroredO, { l0 with heads := l0.heads + 1 })) ∧
    (o.head l0.heads = .raised →
      processRecord (oracleApi o) lib cfg (.wellFormed item) l0 = .error ()) ∧
    (∀ out l1, processRecord (oracleApi o) lib cfg (.wellFormed item) l0 = .ok (out, l1) →
      l0.gets < l1.gets →
      ∃ code, o.head l0.heads = .clientError code ∧ notFoundCodes.contains code = true) := by
  refine ⟨?_, ?_, ?_, ?_⟩
  · intro hv
    simp [processRecord, oracleApi, hp, ha, hv]
  · intro code hv hc
    have hmem : code ∉ notFoundCodes := by simpa using hc
    simp [processRecord, oracleApi, hp, ha, hv, hmem]
  · intro hv
    simp [processRecord, oracleApi, hp, ha, hv]
  · intro out l1 hrun hlt
    cases hv : o.head l0.heads with
    | found =>
      simp [processRecord, oracleApi, hp, ha, hv] at hrun
      rw [← hrun.2] at hlt
      simp at hlt
    | raised =>
      simp [processRecord, oracleApi, hp, ha, hv] at hrun
    | clientError code =>
      by_cases hc : code ∈ notFoundCodes
      · exact ⟨code, rfl, by simpa using hc⟩
      · simp [processRecord, oracleApi, hp, ha, hv, hc] at hrun
        rw [← hrun.2] at hlt
        simp at hlt

/-- C3 is false as stated: a batch containing a single well-formed,
validated item aborts with an uncaught exception as soon as the existence
check fails with a non-`ClientError` error, so no summary is returned. -/
theorem C3_counterexample :
    metadata_handler (oracleApi cexOracle) wLib wCfg [.wellFormed wItem] ⟨0, 0, 0⟩ =
      .error () := by
  rfl

/-- Totality of the batch loop under the same provisos as
`processRecord_isOk`, for any starting counters. -/
theorem runBatch_isOk (o : Oracle) (lib : PilLib) (cfg : Config)
    (hh : ∀ n, o.head n ≠ .raised) :
    ∀ (records : List RecordEnv), (∀ r ∈ records, r ≠ RecordEnv.nonStrKey) →
      ∀ (p sk er : Nat) (l : CallLog),
      (runBatch (oracleApi o) lib cfg records p sk er l).isOk = true := by
  intro records
  induction records with
  | nil => intro hks p sk er l; rfl
  | cons r rest ih =>
    intro hks p sk er l
    simp only [runBatch]
    cases hr : processRecord (oracleApi o) lib cfg r l with
    | error e =>
      have hok := processRecord_isOk o lib cfg hh r (hks r (by simp)) l
      rw [hr] at hok
      exact hok
    | ok pr =>
      obtain ⟨out, l1⟩ := pr
      have hks' : ∀ r' ∈ rest, r' ≠ RecordEnv.nonStrKey :=
        fun r' hmem => hks r' (by simp [hmem])
      cases out
      · exact ih hks' (p + 1) sk er l1
      · exact ih hks' p (sk + 1) er l1
      · exact ih hks' p sk (er + 1) l1

/-- The second batch-aborting path, now in the model: a record whose body
parses with a non-string `key` reaches the prefix test outside every `try`
and the whole batch raises before any S3 call. -/
theorem nonStrKey_aborts_batch (lib : PilLib) (cfg : Config) (l0 : CallLog)
    (o : Oracle) (rest : List RecordEnv) :
    metadata_handler (oracleApi o) lib cfg (.nonStrKey :: rest) l0 = .error () := by
  rfl

/-- C3 (amended): as long as every parsed envelope body carries a string
`key` (so the prefix test cannot raise) and every existence-check failure is
a `ClientError` (the only kind the loop catches; this also excludes the
parameter-validation error a non-string `bucket` causes there), the batch run
never raises, whatever the records and the other collaborator behaviours do:
it always returns a summary. -/
theorem C3_batch_always_returns (o : Oracle) (lib : PilLib) (cfg : Config)
    (records : List RecordEnv) (l0 : CallLog) (hh : ∀ n, o.head n ≠ .raised)
    (hks : ∀ r ∈ records, r ≠ RecordEnv.nonStrKey) :
    (metadata_handler (oracleApi o) lib cfg records l0).isOk = true :=
  runBatch_isOk o lib cfg hh records hks 0 0 0 l0

/-- C6: the tag normalizer is total; it returns the empty mapping when the
tag read raises and when the tag table is empty, and every entry it returns
comes from a raw entry, keyed by the resolved tag name (or the decimal tag id
when the table has no name for it), with binary values decoded by the
replacement-character codec, sequence values turned into lists of the
elements' string forms, and any other value kept as its string form. -/
theorem C6_safe_exif_total (tags : Nat → Option PyStr) (u8 : List Nat → PyStr) :
    _safe_exif_dict tags u8 .raises = [] ∧
    _safe_exif_dict tags u8 (.table []) = [] ∧
    (∀ entries k v, (k, v) ∈ _safe_exif_dict tags u8 (.table entries) →
      ∃ id tv, (id, tv) ∈ entries ∧ k = (tags id).getD (natStr id) ∧
        v = match tv with
            | .vbytes bs => ExVal.s (u8 bs)
            | .vseq es => ExVal.l es
            | .vother sv => ExVal.s sv) := by
  refine ⟨rfl, rfl, ?_⟩
  intro entries k v h
  rcases mem_exif_fold tags u8 entries [] k v h with h' | h'
  · simp at h'
  · obtain ⟨id, tv, hmem, hk, hv⟩ := h'
    refine ⟨id, tv, hmem, hk, ?_⟩
    cases tv <;> exact hv

/-- C8: in a two-record batch made of one malformed envelope and one
well-formed item that processes successfully, the summary counts one error
and one processed item (no skip), in either order, and the final collaborator
state is exactly the state the well-formed item alone produces: the malformed
envelope never touches the store. -/
theorem C8_batch_isolation {σ : Type} (api : S3Api σ) (lib : PilLib) (cfg : Config)
    (item : WorkItem) (s s' : σ)
    (h : processRecord api lib cfg (.wellFormed item) s = .ok (.processedO, s')) :
    metadata_handler api lib cfg [.malformed, .wellFormed item] s =
      .ok ({ statusCode := 200, processed := 1, skipped := 0, errors := 1 }, s') ∧
    metadata_handler api lib cfg [.wellFormed item, .malformed] s =
      .ok ({ statusCode := 200, processed := 1, skipped := 0, errors := 1 }, s') := by
  have hm : ∀ t : σ, processRecord api lib cfg .malformed t = .ok (.erroredO, t) :=
    fun _ => rfl
  constructor
  · simp only [metadata_handler, runBatch, hm, h]
  · simp only [metadata_handler, runBatch, hm, h]

/-- C9: every batch run that returns classifies each record into exactly one
counter — the counters sum to the record count — and reports status code
200. -/
theorem C9_summary_invariant {σ : Type} (api : S3Api σ) (lib : PilLib) (cfg : Config)
    (records : List RecordEnv) (s0 : σ) (sum : Summary) (sf : σ)
    (h : metadata_handler api lib cfg records s0 = .ok (sum, sf)) :
    sum.processed + sum.skipped + sum.errors = records.length ∧ sum.statusCode = 200 := by
  have hc := runBatch_counts api lib cfg records 0 0 0 s0 sum sf h
  simpa using hc

/-! ### Witnesses instantiating the claims on concrete inputs -/

/-- C1 witness: the concrete first run processes, and the theorem then
evaluates the second run to `Skipped` with the store unchanged. -/
theorem C1_witness : processOne wLib wCfg wItem wStore1 = .ok (.skippedO, wStore1) :=
  C1_processOne_idempotent wLib wCfg wItem wStore0 wStore1 (by rfl)

/-- C2 witness (amended theorem, "found" branch): an existing output key
yields `Skipped` after one existence check and no fetch. -/
theorem C2_witness :
    processRecord (oracleApi wOracleFound) wLib wCfg (.wellFormed wItem) ⟨0, 0, 0⟩ =
      .ok (.skippedO, ⟨1, 0, 0⟩) :=
  (C2_head_check_gate wOracleFound wLib wCfg wItem ⟨0, 0, 0⟩ (by decide) (by decide)).1 rfl

/-- C3 witness (amended theorem): a concrete batch against client-error-only
behaviour returns a summary. -/
theorem C3_witness :
    (metadata_handler (oracleApi wOracle404) wLib wCfg
      [.wellFormed wItem, .malformed] ⟨0, 0, 0⟩).isOk = true :=
  C3_batch_always_returns wOracle404 wLib wCfg [.wellFormed wItem, .malformed] ⟨0, 0, 0⟩
    (fun _ h => nomatch h) (by decide)

/-- C4 witness: the default configuration maps `incoming/a.jpg` to
`metadata/a.jpg.json`. -/
theorem C4_witness :
    _build_metadata_key (pstr ("incoming/a.jpg")) (pstr ("incoming/")) (pstr ("metadata/")) =
      pstr ("metadata/") ++ (pstr ("incoming/a.jpg")).drop (pstr ("incoming/")).length ++
        pstr (".json") :=
  (C4_build_metadata_key (pstr ("incoming/a.jpg")) (pstr ("incoming/")) (pstr ("metadata/"))).1
    (by decide)

/-- C5 witness: with a source object of 3 bytes declaring length 999, the
written record carries 999. -/
theorem C5_witness :
    alookup w5Store1 (wItem.bucket, _build_metadata_key wItem.key wCfg.inputPfx wCfg.outputPfx) =
      some { body := utf8Encode (serializeMetadata (assembleMetadata wItem.bucket wItem.key
               wItem.etag (pyUpper (wImg.format.getD [])) wImg.width wImg.height
               (w5Obj.declaredLen.getD (Int.ofNat w5Obj.body.length))
               (_safe_exif_dict wLib.tags wLib.u8 wImg.exifRes))),
             declaredLen := none, contentType := some (pstr ("application/json")) } ∧
    (assembleMetadata wItem.bucket wItem.key wItem.etag (pyUpper (wImg.format.getD []))
        wImg.width wImg.height (w5Obj.declaredLen.getD (Int.ofNat w5Obj.body.length))
        (_safe_exif_dict wLib.tags wLib.u8 wImg.exifRes)).file_size_bytes =
      w5Obj.declaredLen.getD (Int.ofNat w5Obj.body.length) :=
  C5_file_size_from_content_length wLib wCfg wItem w5Store0 w5Store1 w5Obj wImg
    (by rfl) (by rfl) (by rfl)

/-- C6 witness: a table with the sole entry `(306, "2024")` yields the entry
keyed `DateTime` with the stringified value. -/
theorem C6_witness :
    ∃ id tv, (id, tv) ∈ [(306, TagValue.vother (pstr ("2024")))] ∧
      pstr ("DateTime") = (wLib.tags id).getD (natStr id) ∧
      ExVal.s (pstr ("2024")) = match tv with
                                | .vbytes bs => ExVal.s (wLib.u8 bs)
                                | .vseq es => ExVal.l es
                                | .vother sv => ExVal.s sv :=
  (C6_safe_exif_total wLib.tags wLib.u8).2.2 [(306, TagValue.vother (pstr ("2024")))]
    (pstr ("DateTime")) (ExVal.s (pstr ("2024"))) (by decide)

/-- C7 witness: two runs over different stores holding the same source object
write the same sidecar object, typed `application/json`. -/
theorem C7_witness :
    ∃ o, alookup wStore1 (wItem.bucket, _build_metadata_key wItem.key wCfg.inputPfx
          wCfg.outputPfx) = some o ∧
      alookup w7Store1 (wItem.bucket, _build_metadata_key wItem.key wCfg.inputPfx
          wCfg.outputPfx) = some o ∧
      o.contentType = some (pstr ("application/json")) ∧
      ∃ m, o.body = utf8Encode (serializeMetadata m) :=
  C7_canonical_write wLib wCfg wItem wStore0 w7Store0 wStore1 w7Store1 wObj
    (by rfl) (by rfl) (by rfl) (by rfl)

/-- C8 witness: the two-record batches around `wItem` both count one error
and one processed item and end in the same store. -/
theorem C8_witness :
    metadata_handler storeApi wLib wCfg [.malformed, .wellFormed wItem] wStore0 =
      .ok ({ statusCode := 200, processed := 1, skipped := 0, errors := 1 }, wStore1) ∧
    metadata_handler storeApi wLib wCfg [.wellFormed wItem, .malformed] wStore0 =
      .ok ({ statusCode := 200, processed := 1, skipped := 0, errors := 1 }, wStore1) :=
  C8_batch_isolation storeApi wLib wCfg wItem wStore0 wStore1 (by rfl)

/-- C9 witness: on a concrete two-record batch the counters sum to two and
the status code is 200. -/
theorem C9_witness :
    (Summary.mk 200 1 0 1).processed + (Summary.mk 200 1 0 1).skipped +
      (Summary.mk 200 1 0 1).errors =
      ([RecordEnv.malformed, RecordEnv.wellFormed wItem]).length ∧
    (Summary.mk 200 1 0 1).statusCode = 200 :=
  C9_summary_invariant storeApi wLib wCfg [.malformed, .wellFormed wItem] wStore0
    (Summary.mk 200 1 0 1) wStore1 (by rfl)

/-- C10 witness: the concrete processed run only touches the mapped key in
the item's own bucket. -/
theorem C10_witness :
    ∃ o, wStore1 = upsert wStore0
        (wItem.bucket, _build_metadata_key wItem.key wCfg.inputPfx wCfg.outputPfx) o ∧
      ∀ b k, (b, k) ≠ (wItem.bucket, _build_metadata_key wItem.key wCfg.inputPfx
          wCfg.outputPfx) →
        alookup wStore1 (b, k) = alookup wStore0 (b, k) :=
  (C10_write_target wLib wCfg wItem wStore0 .processedO wStore1 (by rfl)).1 rfl

/-! ### Cross-validation of the serializer against reference output -/

/-- The serializer reproduces `json.dumps(..., indent=2, sort_keys=True)`
byte-for-byte on the flat sample record. -/
theorem serializeMetadata_sample :
    serializeMetadata wMeta =
    pstr ("\x7b\n  \"etag\": \"e1\",\n  \"exif\": \x7b\x7d,\n  \"file_size_bytes\": 3,\n  \"format\": \"JPEG\",\n  \"height\": 20,\n  \"source_bucket\": \"b\",\n  \"source_key\": \"incoming/a.jpg\",\n  \"width\": 10\n\x7d") := by
  decide

/-- The serializer reproduces the reference output on a record with a null
etag and a nested, unsorted tag mapping holding a list value. -/
theorem serializeMetadata_nested_sample :
    serializeMetadata (assembleMetadata (pstr ("b")) (pstr ("incoming/a.jpg")) none
      (pstr ("JPEG")) 10 20 3
      [(pstr ("GPSInfo"), .l [pstr ("1"), pstr ("2")]), (pstr ("DateTime"), .s (pstr ("x")))]) =
    pstr ("\x7b\n  \"etag\": null,\n  \"exif\": \x7b\n    \"DateTime\": \"x\",\n    \"GPSInfo\": [\n      \"1\",\n      \"2\"\n    ]\n  \x7d,\n  \"file_size_bytes\": 3,\n  \"format\": \"JPEG\",\n  \"height\": 20,\n  \"source_bucket\": \"b\",\n  \"source_key\": \"incoming/a.jpg\",\n  \"width\": 10\n\x7d") := by
  decide

/-- String escaping follows the reference encoder on non-ASCII, control, and
DEL characters. -/
theorem jsonStr_escape_sample :
    jsonStr (pstr ("é") ++ [Char.ofNat 1] ++ pstr ("\n") ++ [Char.ofNat 0x7f]) =
    pstr ("\"\\u00e9\\u0001\\n\\u007f\"") := by decide

end App
